import Mathlib

/-!
Shallow embedding of the KEDA Redis external scaler (main.go) in Lean 4.

The Go program keeps an in-memory map `scalers : map[string]*RedisScaler`
inside `RedisExternalScalerServer` and implements the five gRPC handlers
`New`, `Close`, `IsActive`, `GetMetricSpec`, `GetMetrics`.  We embed the
registry as an association list with unique keys (the extensional content
of a Go map), the metadata map as an association list, and the external
Redis `LLen` call as an oracle parameter.  Go's `strconv.Atoi` is embedded
faithfully (optional sign, nonempty ASCII digit run, 64-bit signed range).
-/

namespace KedaRedisScaler

/-- Constant block of main.go: the fixed metric name. -/
def listLengthMetricName : String := "RedisListLength"

/-- Constant block of main.go: default target list length. -/
def defaultTargetListLength : Int := 5

/-- Constant block of main.go: default Redis address. -/
def defaultRedisAddress : String := "redis-master.default.svc.cluster.local:6379"

/-- Constant block of main.go: default Redis password. -/
def defaultRedisPassword : String := ""

/-- ASCII decimal digit test, as used by strconv.ParseInt in base 10. -/
def isDigit (c : Char) : Bool := '0' ≤ c && c ≤ '9'

/-- Accumulate a digit list into a natural number, most significant first. -/
def digitsToNat (l : List Char) : Nat :=
  l.foldl (fun acc c => acc * 10 + (c.toNat - 48)) 0

/-- Go strconv.Atoi on a 64-bit platform: an optional leading sign followed by a
nonempty run of ASCII digits whose value fits in a signed 64-bit integer; every
other input (and any overflow) yields an error, here `none`. -/
def Atoi (s : String) : Option Int :=
  let cs := s.data
  let signDigits : Bool × List Char :=
    match cs with
    | '-' :: rest => (true, rest)
    | '+' :: rest => (false, rest)
    | _ => (false, cs)
  let neg := signDigits.1
  let ds := signDigits.2
  if ds.isEmpty then none
  else if ds.all isDigit then
    let v : Int := if neg then -(digitsToNat ds : Int) else (digitsToNat ds : Int)
    if -(2 ^ 63) ≤ v ∧ v ≤ 2 ^ 63 - 1 then some v else none
  else none

/-- Metadata mapping of a register request (`map[string]string` in Go). -/
abbrev Metadata := List (String × String)

/-- Lookup of a key in a metadata mapping (Go map indexing with the ok flag). -/
def lookupMeta (m : Metadata) (k : String) : Option String :=
  match m.find? (fun p => p.1 == k) with
  | some p => some p.2
  | none => none

/-- Opaque error value produced by the Redis client, propagated verbatim. -/
abbrev RedisErr := String

/-- Error values the Go handlers can return: the two `fmt.Errorf` sites of
`parseRedisMetadata`, the `Cannot find scaler` site of the three query
handlers, and a propagated Redis client error. -/
inductive GoError where
  | listLengthParse (val : String) : GoError
  | noListName : GoError
  | cannotFindScaler (name : String) : GoError
  | redis (e : RedisErr) : GoError
deriving DecidableEq, Repr

/-- The `RedisScaler` struct of main.go. -/
structure RedisScaler where
  address : String
  password : String
  listName : String
  listLength : Int
deriving DecidableEq, Repr

/-- The `scalers` map of `RedisExternalScalerServer`, as an association list
with unique keys (a nil Go map reads as an empty map, so we identify both
with `[]`). -/
abbrev Registry := List (String × RedisScaler)

/-- Go map read with ok flag: `scalerRef, ok := s.scalers[name]`. -/
def mapGet (r : Registry) (k : String) : Option RedisScaler :=
  match r.find? (fun p => p.1 == k) with
  | some p => some p.2
  | none => none

/-- Go map write `s.scalers[name] = scaler`: replaces any entry at the key. -/
def mapPut (r : Registry) (k : String) (v : RedisScaler) : Registry :=
  (k, v) :: r.filter (fun p => p.1 != k)

/-- Go `delete(s.scalers, name)`: removes the entry at the key if present. -/
def mapDelete (r : Registry) (k : String) : Registry :=
  r.filter (fun p => p.1 != k)

/-- Number of registry entries stored under a given key. -/
def countKey (r : Registry) (k : String) : Nat :=
  (r.filter (fun p => p.1 == k)).length

/-- The `pb.ScaledObjectRef` message: namespace and name. -/
structure ScaledObjectRef where
  ns : String
  name : String
deriving DecidableEq, Repr

/-- The `pb.NewRequest` message: object reference plus metadata mapping. -/
structure NewRequest where
  scaledObjectRef : ScaledObjectRef
  metadata : Metadata
deriving DecidableEq, Repr

/-- The `pb.GetMetricsRequest` message: object reference plus a metric name. -/
structure GetMetricsRequest where
  scaledObjectRef : ScaledObjectRef
  metricName : String
deriving DecidableEq, Repr

/-- The `pb.IsActiveResponse` message. -/
structure IsActiveResponse where
  result : Bool
deriving DecidableEq, Repr

/-- The `pb.MetricSpec` message. -/
structure MetricSpec where
  metricName : String
  targetSize : Int
deriving DecidableEq, Repr

/-- The `pb.GetMetricSpecResponse` message. -/
structure GetMetricSpecResponse where
  metricSpecs : List MetricSpec
deriving DecidableEq, Repr

/-- The `pb.MetricValue` message. -/
structure MetricValue where
  metricName : String
  metricValue : Int
deriving DecidableEq, Repr

/-- The `pb.GetMetricsResponse` message. -/
structure GetMetricsResponse where
  metricValues : List MetricValue
deriving DecidableEq, Repr

/-- Outcome of one `client.LLen(listName)` call of the external Redis client:
the command value and its error, mirroring `cmd.Result()` in Go. -/
structure LLenResult where
  value : Int
  err : Option RedisErr
deriving DecidableEq, Repr

/-- Oracle for the external Redis client: address, password and list name
determine the outcome of the `LLen` command. -/
abbrev LLen := String → String → String → LLenResult

/-- Embedding of `getRedisListLength`: runs the `LLen` command and returns
its error verbatim when present, its value otherwise. -/
def getRedisListLength (llen : LLen) (address : String) (password : String)
    (listName : String) : Except GoError Int :=
  let cmd := llen address password listName
  match cmd.err with
  | some e => Except.error (GoError.redis e)
  | none => Except.ok cmd.value

/-- Embedding of `getScalerUniqueName`: `namespace + "/" + name`. -/
def getScalerUniqueName (scaledObjectRef : ScaledObjectRef) : String :=
  scaledObjectRef.ns ++ "/" ++ scaledObjectRef.name

/-- Embedding of `parseRedisMetadata`: target length from `listLength`
(default 5, `Atoi` failure is an error), required `listName`, and `address`
and `password` defaulting when absent or empty. -/
def parseRedisMetadata (metadata : Metadata) : Except GoError RedisScaler :=
  let listLengthResult : Except GoError Int :=
    match lookupMeta metadata "listLength" with
    | some val =>
      match Atoi val with
      | none => Except.error (GoError.listLengthParse val)
      | some n => Except.ok n
    | none => Except.ok defaultTargetListLength
  match listLengthResult with
  | Except.error e => Except.error e
  | Except.ok listLength =>
    match lookupMeta metadata "listName" with
    | none => Except.error GoError.noListName
    | some listName =>
      let address :=
        match lookupMeta metadata "address" with
        | some val => if val = "" then defaultRedisAddress else val
        | none => defaultRedisAddress
      let password :=
        match lookupMeta metadata "password" with
        | some val => if val = "" then defaultRedisPassword else val
        | none => defaultRedisPassword
      Except.ok { address := address, password := password,
                  listName := listName, listLength := listLength }

/-- Embedding of the `New` handler: parse the metadata; on error return it with
the registry untouched, otherwise store the scaler under the unique name. -/
def New (s : Registry) (request : NewRequest) : Except GoError Unit × Registry :=
  let name := getScalerUniqueName request.scaledObjectRef
  match parseRedisMetadata request.metadata with
  | Except.error e => (Except.error e, s)
  | Except.ok scaler => (Except.ok (), mapPut s name scaler)

/-- Embedding of the `Close` handler: delete the entry if present, always
acknowledge. -/
def Close (s : Registry) (request : ScaledObjectRef) : Except GoError Unit × Registry :=
  let name := getScalerUniqueName request
  if (mapGet s name).isSome then
    (Except.ok (), mapDelete s name)
  else
    (Except.ok (), s)

/-- Embedding of the `IsActive` handler: look up the scaler, query the list
length, report `length > 0`; propagate a query error; fail when unknown. -/
def IsActive (llen : LLen) (s : Registry) (request : ScaledObjectRef) :
    Except GoError IsActiveResponse × Registry :=
  let name := getScalerUniqueName request
  match mapGet s name with
  | some scalerRef =>
    match getRedisListLength llen scalerRef.address scalerRef.password scalerRef.listName with
    | Except.error e => (Except.error e, s)
    | Except.ok result => (Except.ok { result := decide (result > 0) }, s)
  | none => (Except.error (GoError.cannotFindScaler name), s)

/-- Embedding of the `GetMetricSpec` handler: one spec with the fixed metric
name and the stored target length; fail when unknown. -/
def GetMetricSpec (s : Registry) (request : ScaledObjectRef) :
    Except GoError GetMetricSpecResponse × Registry :=
  let name := getScalerUniqueName request
  match mapGet s name with
  | some scalerRef =>
    (Except.ok { metricSpecs := [{ metricName := listLengthMetricName,
                                   targetSize := scalerRef.listLength }] }, s)
  | none => (Except.error (GoError.cannotFindScaler name), s)

/-- Embedding of the `GetMetrics` handler: look up the scaler, query the list
length, report it under the fixed metric name; propagate a query error; fail
when unknown.  The request's own `metricName` field is never read. -/
def GetMetrics (llen : LLen) (s : Registry) (request : GetMetricsRequest) :
    Except GoError GetMetricsResponse × Registry :=
  let name := getScalerUniqueName request.scaledObjectRef
  match mapGet s name with
  | some scalerRef =>
    match getRedisListLength llen scalerRef.address scalerRef.password scalerRef.listName with
    | Except.error e => (Except.error e, s)
    | Except.ok listLen =>
      (Except.ok { metricValues := [{ metricName := listLengthMetricName,
                                      metricValue := listLen }] }, s)
  | none => (Except.error (GoError.cannotFindScaler name), s)

/-- Whether a `GoError` is one of the two configuration errors that
`parseRedisMetadata` can produce. -/
def isConfigError : GoError → Bool
  | GoError.listLengthParse _ => true
  | GoError.noListName => true
  | _ => false

/-- Concrete scaler used to evaluate the theorems on a registered identity. -/
def wScaler : RedisScaler :=
  { address := "redis:6379", password := "", listName := "jobs", listLength := 10 }

/-- Concrete registry with one entry. -/
def wRegistry : Registry := [("default/worker", wScaler)]

/-- Concrete object reference. -/
def wRef : ScaledObjectRef := { ns := "default", name := "worker" }

/-- Redis oracle that always answers with a fixed length and no error. -/
def llenOk (v : Int) : LLen := fun _ _ _ => { value := v, err := none }

/-- Redis oracle that always fails with a fixed error. -/
def llenErr (e : RedisErr) : LLen := fun _ _ _ => { value := -1, err := some e }

/-- Concrete metadata with an unparseable `listLength`. -/
def wBadMeta : Metadata := [("listLength", "abc"), ("listName", "jobs")]

/-- Concrete valid metadata. -/
def wGoodMeta : Metadata := [("listName", "jobs"), ("listLength", "10")]

/-- Concrete valid metadata lacking `listLength`. -/
def wGoodMeta2 : Metadata := [("listName", "tasks")]

/-- Concrete metadata with `listName` mapped to the empty string. -/
def wEmptyNameMeta : Metadata := [("listName", ""), ("address", ""), ("password", "")]

/-!
Helper lemmas about the registry operations, shared by the claim theorems.
-/

theorem mapGet_mapPut_self (r : Registry) (k : String) (v : RedisScaler) :
    mapGet (mapPut r k v) k = some v := by
  simp [mapGet, mapPut, List.find?]

theorem filter_eq_of_filter_ne (r : Registry) (k : String) :
    (r.filter (fun p => p.1 != k)).filter (fun p => p.1 == k) = [] := by
  induction r with
  | nil => rfl
  | cons a l ih =>
    by_cases h : a.1 = k
    · simp [h, ih]
    · simp [h, ih]

theorem countKey_mapPut (r : Registry) (k : String) (v : RedisScaler) :
    countKey (mapPut r k v) k = 1 := by
  simp [countKey, mapPut, filter_eq_of_filter_ne]

theorem mapGet_mapDelete_self (r : Registry) (k : String) :
    mapGet (mapDelete r k) k = none := by
  simp only [mapGet, mapDelete]
  rw [show (r.filter (fun p => p.1 != k)).find? (fun p => p.1 == k) = none from ?_]
  · rw [List.find?_eq_none]
    intro x hx
    simp only [List.mem_filter, bne_iff_ne, ne_eq] at hx
    simp [hx.2]

theorem find?_filter_ne (l : List (String × RedisScaler)) (k q : String) (h : q ≠ k) :
    (l.filter (fun p => p.1 != k)).find? (fun p => p.1 == q) =
      l.find? (fun p => p.1 == q) := by
  induction l with
  | nil => rfl
  | cons a l ih =>
    by_cases ha : a.1 = k
    · have hkq : (k == q) = false := by simp [Ne.symm h]
      have haq : (a.1 == q) = false := by rw [ha]; exact hkq
      simp [List.filter_cons, ha, List.find?_cons, haq, hkq, ih]
    · by_cases haq : a.1 = q
      · simp [List.filter_cons, ha, List.find?_cons, haq, h]
      · simp [List.filter_cons, ha, List.find?_cons, haq, ih]

theorem mapGet_mapDelete_other (r : Registry) (k q : String) (h : q ≠ k) :
    mapGet (mapDelete r k) q = mapGet r q := by
  simp only [mapGet, mapDelete, find?_filter_ne r k q h]

/-- C1: for a registered identity, `IsActive` answers false when the queue
length query reports 0, true when it reports any positive integer, and when
the query fails it propagates the query error instead of a boolean result. -/
theorem C1_active_iff_nonempty (llen : LLen) (s : Registry) (request : ScaledObjectRef)
    (scalerRef : RedisScaler)
    (h : mapGet s (getScalerUniqueName request) = some scalerRef) :
    ((llen scalerRef.address scalerRef.password scalerRef.listName).err = none →
      (llen scalerRef.address scalerRef.password scalerRef.listName).value = 0 →
      (IsActive llen s request).1 = Except.ok { result := false }) ∧
    ((llen scalerRef.address scalerRef.password scalerRef.listName).err = none →
      0 < (llen scalerRef.address scalerRef.password scalerRef.listName).value →
      (IsActive llen s request).1 = Except.ok { result := true }) ∧
    (∀ e, (llen scalerRef.address scalerRef.password scalerRef.listName).err = some e →
      (IsActive llen s request).1 = Except.error (GoError.redis e)) := by
  refine ⟨fun he hv => ?_, fun he hv => ?_, fun e he => ?_⟩
  · simp [IsActive, getRedisListLength, h, he, hv]
  · simp only [IsActive, getRedisListLength, h, he]
    simp [hv]
  · simp [IsActive, getRedisListLength, h, he]

/-- C2: `IsActive`, `GetMetricSpec` and `GetMetrics` against an identity with
no registry entry each fail with the `Cannot find scaler` error and leave the
registry unchanged. -/
theorem C2_unregistered_query_fails (llen : LLen) (s : Registry)
    (request : ScaledObjectRef) (mName : String)
    (h : mapGet s (getScalerUniqueName request) = none) :
    IsActive llen s request =
      (Except.error (GoError.cannotFindScaler (getScalerUniqueName request)), s) ∧
    GetMetricSpec s request =
      (Except.error (GoError.cannotFindScaler (getScalerUniqueName request)), s) ∧
    GetMetrics llen s { scaledObjectRef := request, metricName := mName } =
      (Except.error (GoError.cannotFindScaler (getScalerUniqueName request)), s) := by
  refine ⟨?_, ?_, ?_⟩ <;> simp [IsActive, GetMetricSpec, GetMetrics, h]

/-- C3: `New` fails with a configuration error exactly when the metadata's
`listLength` value is present but not parseable by `Atoi`, or `listName` is
absent; and every failure leaves the registry unchanged. -/
theorem C3_new_config_error_iff (s : Registry) (request : NewRequest) :
    ((∃ e, (New s request).1 = Except.error e ∧ isConfigError e = true) ↔
      ((∃ v, lookupMeta request.metadata "listLength" = some v ∧ Atoi v = none) ∨
        lookupMeta request.metadata "listName" = none)) ∧
    (∀ e, (New s request).1 = Except.error e → (New s request).2 = s) := by
  constructor
  · cases hLL : lookupMeta request.metadata "listLength" with
    | none =>
      cases hLN : lookupMeta request.metadata "listName" with
      | none => simp [New, parseRedisMetadata, hLL, hLN, isConfigError]
      | some ln => simp [New, parseRedisMetadata, hLL, hLN, isConfigError]
    | some v =>
      cases hA : Atoi v with
      | none => simp [New, parseRedisMetadata, hLL, hA, isConfigError]
      | some n =>
        cases hLN : lookupMeta request.metadata "listName" with
        | none => simp [New, parseRedisMetadata, hLL, hA, hLN, isConfigError]
        | some ln => simp [New, parseRedisMetadata, hLL, hA, hLN, isConfigError]
  · intro e he
    cases hp : parseRedisMetadata request.metadata with
    | error e2 => simp [New, hp]
    | ok sc => simp [New, hp] at he

/-- C4: registering the same identity twice with valid metadata leaves exactly
one registry entry for it, holding the scaler parsed from the second
metadata. -/
theorem C4_register_replace (s : Registry) (ref : ScaledObjectRef) (m1 m2 : Metadata)
    (sc1 sc2 : RedisScaler)
    (h1 : parseRedisMetadata m1 = Except.ok sc1)
    (h2 : parseRedisMetadata m2 = Except.ok sc2) :
    countKey (New (New s { scaledObjectRef := ref, metadata := m1 }).2
        { scaledObjectRef := ref, metadata := m2 }).2 (getScalerUniqueName ref) = 1 ∧
    mapGet (New (New s { scaledObjectRef := ref, metadata := m1 }).2
        { scaledObjectRef := ref, metadata := m2 }).2 (getScalerUniqueName ref) =
      some sc2 := by
  simp [New, h1, h2, countKey_mapPut, mapGet_mapPut_self]

/-- C5: registering with metadata that has `listName` but lacks `listLength`
succeeds and stores an entry whose target threshold is 5. -/
theorem C5_threshold_default (s : Registry) (ref : ScaledObjectRef) (md : Metadata)
    (qn : String)
    (hAbsent : lookupMeta md "listLength" = none)
    (hName : lookupMeta md "listName" = some qn) :
    (New s { scaledObjectRef := ref, metadata := md }).1 = Except.ok () ∧
    ∃ sc, mapGet (New s { scaledObjectRef := ref, metadata := md }).2
        (getScalerUniqueName ref) = some sc ∧ sc.listLength = 5 := by
  simp [New, parseRedisMetadata, hAbsent, hName, mapGet_mapPut_self,
    defaultTargetListLength]

/-- C6: for a registered identity, `GetMetricSpec` returns exactly one metric
descriptor carrying the fixed metric name and the stored target threshold, and
every successful `GetMetrics` response reports that same fixed metric name. -/
theorem C6_metric_correlation (llen : LLen) (s : Registry) (request : ScaledObjectRef)
    (mName : String) (scalerRef : RedisScaler)
    (h : mapGet s (getScalerUniqueName request) = some scalerRef) :
    (GetMetricSpec s request).1 =
      Except.ok { metricSpecs := [{ metricName := listLengthMetricName,
                                    targetSize := scalerRef.listLength }] } ∧
    ∀ resp, (GetMetrics llen s { scaledObjectRef := request, metricName := mName }).1 =
        Except.ok resp →
      List.map MetricValue.metricName resp.metricValues = [listLengthMetricName] := by
  constructor
  · simp [GetMetricSpec, h]
  · intro resp hresp
    cases he : (llen scalerRef.address scalerRef.password scalerRef.listName).err with
    | some e => simp [GetMetrics, getRedisListLength, h, he] at hresp
    | none =>
      simp [GetMetrics, getRedisListLength, h, he] at hresp
      rw [← hresp]
      simp

/-- C7: `Close` always acknowledges; on an absent identity it leaves the
registry unchanged, and on a present identity it removes exactly that entry,
leaving every other key's lookup unchanged. -/
theorem C7_close_noop_or_remove (s : Registry) (request : ScaledObjectRef) :
    (Close s request).1 = Except.ok () ∧
    (mapGet s (getScalerUniqueName request) = none → (Close s request).2 = s) ∧
    (∀ sc, mapGet s (getScalerUniqueName request) = some sc →
      mapGet (Close s request).2 (getScalerUniqueName request) = none ∧
      ∀ k, k ≠ getScalerUniqueName request → mapGet (Close s request).2 k = mapGet s k) := by
  refine ⟨?_, fun h => ?_, fun sc h => ⟨?_, fun k hk => ?_⟩⟩
  · cases hg : mapGet s (getScalerUniqueName request) <;> simp [Close, hg]
  · simp [Close, h]
  · simp [Close, h, mapGet_mapDelete_self]
  · simp [Close, h, mapGet_mapDelete_other _ _ _ hk]

/-- C10 as stated is false at a concrete input: with metadata mapping
`listName` to the empty string but `listLength` to an unparseable value,
registration fails instead of succeeding. -/
theorem C10_counterexample :
    lookupMeta [("listLength", "abc"), ("listName", "")] "listName" = some "" ∧
    (New [] { scaledObjectRef := { ns := "default", name := "worker" },
              metadata := [("listLength", "abc"), ("listName", "")] }).1 =
      Except.error (GoError.listLengthParse "abc") := by
  exact ⟨rfl, rfl⟩

/-- C10 (amended): if `listName` is present mapped to the empty string and any
present `listLength` value parses as an integer, registration succeeds and
stores an entry whose queue name is the empty string — the required-name check
tests only key presence — while empty `address` and `password` values fall
back to their defaults. -/
theorem C10_empty_list_name_accepted (s : Registry) (ref : ScaledObjectRef) (md : Metadata)
    (hName : lookupMeta md "listName" = some "")
    (hLen : ∀ v, lookupMeta md "listLength" = some v → (Atoi v).isSome = true) :
    (New s { scaledObjectRef := ref, metadata := md }).1 = Except.ok () ∧
    ∃ sc, mapGet (New s { scaledObjectRef := ref, metadata := md }).2
        (getScalerUniqueName ref) = some sc ∧ sc.listName = "" ∧
      (lookupMeta md "address" = some "" → sc.address = defaultRedisAddress) ∧
      (lookupMeta md "password" = some "" → sc.password = defaultRedisPassword) := by
  cases hLL : lookupMeta md "listLength" with
  | none =>
    simp [New, parseRedisMetadata, hLL, hName, mapGet_mapPut_self]
    constructor
    · intro hAd
      simp [hAd]
    · intro hPw
      simp [hPw]
  | some v =>
    obtain ⟨n, hA⟩ := Option.isSome_iff_exists.mp (hLen v hLL)
    simp [New, parseRedisMetadata, hLL, hA, hName, mapGet_mapPut_self]
    constructor
    · intro hAd
      simp [hAd]
    · intro hPw
      simp [hPw]

/-- C8: the workload identity is exactly `ns ++ "/" ++ n`, with no
normalization, and equal inputs always yield equal identities. -/
theorem C8_identity_determinism (ns n : String) :
    getScalerUniqueName { ns := ns, name := n } = ns ++ "/" ++ n ∧
    ∀ r1 r2 : ScaledObjectRef, r1 = r2 →
      getScalerUniqueName r1 = getScalerUniqueName r2 :=
  ⟨rfl, fun _ _ hr => by rw [hr]⟩

/-- C9: `GetMetrics` never reads the request's `metricName` field, so two
requests differing only in that field produce identical responses. -/
theorem C9_metric_name_ignored (llen : LLen) (s : Registry) (ref : ScaledObjectRef)
    (m1 m2 : String) :
    GetMetrics llen s { scaledObjectRef := ref, metricName := m1 } =
      GetMetrics llen s { scaledObjectRef := ref, metricName := m2 } := rfl

/-- Witness for C1: on a one-entry registry with a queue of length 0,
`IsActive` answers false. -/
theorem C1_witness :
    (IsActive (llenOk 0) wRegistry wRef).1 = Except.ok { result := false } :=
  (C1_active_iff_nonempty (llenOk 0) wRegistry wRef wScaler (by decide)).1 rfl rfl

/-- Witness for C2: the three query handlers fail on the empty registry. -/
theorem C2_witness :
    IsActive (llenOk 0) [] wRef =
      (Except.error (GoError.cannotFindScaler (getScalerUniqueName wRef)), []) ∧
    GetMetricSpec [] wRef =
      (Except.error (GoError.cannotFindScaler (getScalerUniqueName wRef)), []) ∧
    GetMetrics (llenOk 0) [] { scaledObjectRef := wRef, metricName := "m" } =
      (Except.error (GoError.cannotFindScaler (getScalerUniqueName wRef)), []) :=
  C2_unregistered_query_fails (llenOk 0) [] wRef "m" rfl

/-- Witness for C3: a failing registration leaves the empty registry empty. -/
theorem C3_witness :
    (New [] { scaledObjectRef := wRef, metadata := wBadMeta }).2 = [] :=
  (C3_new_config_error_iff [] { scaledObjectRef := wRef, metadata := wBadMeta }).2
    (GoError.listLengthParse "abc") rfl

/-- Witness for C4: registering twice stores exactly the second scaler. -/
theorem C4_witness :
    countKey (New (New [] { scaledObjectRef := wRef, metadata := wGoodMeta }).2
        { scaledObjectRef := wRef, metadata := wGoodMeta2 }).2 (getScalerUniqueName wRef) = 1 ∧
    mapGet (New (New [] { scaledObjectRef := wRef, metadata := wGoodMeta }).2
        { scaledObjectRef := wRef, metadata := wGoodMeta2 }).2 (getScalerUniqueName wRef) =
      some { address := defaultRedisAddress, password := defaultRedisPassword,
             listName := "tasks", listLength := 5 } :=
  C4_register_replace [] wRef wGoodMeta wGoodMeta2
    { address := defaultRedisAddress, password := defaultRedisPassword,
      listName := "jobs", listLength := 10 }
    { address := defaultRedisAddress, password := defaultRedisPassword,
      listName := "tasks", listLength := 5 }
    rfl rfl

/-- Witness for C5: registration without `listLength` succeeds. -/
theorem C5_witness :
    (New [] { scaledObjectRef := wRef, metadata := wGoodMeta2 }).1 = Except.ok () :=
  (C5_threshold_default [] wRef wGoodMeta2 "tasks" rfl rfl).1

/-- Witness for C6: descriptor and value share the fixed metric name on a
concrete registered identity. -/
theorem C6_witness :
    (GetMetricSpec wRegistry wRef).1 =
      Except.ok { metricSpecs := [{ metricName := listLengthMetricName,
                                    targetSize := wScaler.listLength }] } ∧
    List.map MetricValue.metricName
        ({ metricValues := [{ metricName := listLengthMetricName, metricValue := 3 }] } :
          GetMetricsResponse).metricValues = [listLengthMetricName] :=
  ⟨(C6_metric_correlation (llenOk 3) wRegistry wRef "m" wScaler (by decide)).1,
   (C6_metric_correlation (llenOk 3) wRegistry wRef "m" wScaler (by decide)).2
      { metricValues := [{ metricName := listLengthMetricName, metricValue := 3 }] } rfl⟩

/-- Witness for C7: `Close` acknowledges, is a no-op on the empty registry,
and removes a present entry. -/
theorem C7_witness :
    (Close wRegistry wRef).1 = Except.ok () ∧
    (Close [] wRef).2 = [] ∧
    mapGet (Close wRegistry wRef).2 (getScalerUniqueName wRef) = none :=
  ⟨(C7_close_noop_or_remove wRegistry wRef).1,
   (C7_close_noop_or_remove [] wRef).2.1 rfl,
   ((C7_close_noop_or_remove wRegistry wRef).2.2 wScaler (by decide)).1⟩

/-- Witness for C8: the identity of a concrete reference. -/
theorem C8_witness :
    getScalerUniqueName { ns := "default", name := "worker" } =
      "default" ++ "/" ++ "worker" ∧
    getScalerUniqueName wRef = getScalerUniqueName wRef :=
  ⟨(C8_identity_determinism "default" "worker").1,
   (C8_identity_determinism "default" "worker").2 wRef wRef rfl⟩

/-- Witness for C10 (amended): registration with an empty `listName` value
succeeds. -/
theorem C10_witness :
    (New [] { scaledObjectRef := wRef, metadata := wEmptyNameMeta }).1 = Except.ok () :=
  (C10_empty_list_name_accepted [] wRef wEmptyNameMeta rfl
    (fun _ hv => Option.noConfusion hv)).1

end KedaRedisScaler
